import Mathlib

/-
Verification of fatiando/potential/basin2d.py: the TriangularGzDM data module
and the triangular inversion driver (non-streaming `_triangular_solver` and
streaming `_triangular_iterator`).

Shallow embedding notes:
* numpy float arrays are modelled as lists of rationals (`Vec := List ℚ`);
  floating-point rounding is abstracted away, the algebraic structure of every
  operation is kept.
* The external Talwani forward kernel `_talwani.talwani_gz` is an opaque
  collaborator, modelled as an explicit function argument of type `Kernel`.
* Python exceptions become `Except BasinError` results; the distinct
  ValueError / AttributeError / NameError sites get distinct constructors,
  with the singular-Hessian ValueError keeping its literal message.
* Methods that may assign attributes of `self` are modelled as state
  transformers returning the updated module together with their result.
* The solver collaborator is an opaque iterator; one run of it is modelled by
  the finite list of change sets it produces before it either stops normally
  or raises numpy.linalg.LinAlgError (`raisesLinAlg`).
-/

namespace Basin2d

/-- Observation / data arrays: numpy 1-d float arrays as lists of rationals. -/
abbrev Vec := List ℚ

/-- Elementwise addition, numpy `a + b` on equal-length arrays. -/
def addVec (a b : Vec) : Vec := List.zipWith (· + ·) a b

/-- Elementwise subtraction, numpy `a - b` on equal-length arrays. -/
def subVec (a b : Vec) : Vec := List.zipWith (· - ·) a b

/-- Scalar multiple of an array, numpy `c * a`. -/
def scaleVec (c : ℚ) (a : Vec) : Vec := a.map (fun x => c * x)

/-- Elementwise division by a scalar, numpy `a / d`. -/
def divVec (a : Vec) (d : ℚ) : Vec := a.map (fun x => x / d)

/-- Dot product of two arrays. -/
def dotVec (a b : Vec) : ℚ := (List.zipWith (· * ·) a b).sum

/-- The external Talwani forward kernel `_talwani.talwani_gz`:
arguments are (prop, xs, zs, xp, zp), result is the predicted profile. -/
abbrev Kernel := ℚ → Vec → Vec → Vec → Vec → Vec

/-- A 2x2 matrix (the Hessian accumulator for the two free parameters). -/
structure Mat2 where
  xx : ℚ
  xz : ℚ
  zx : ℚ
  zz : ℚ
deriving DecidableEq, Repr

/-- Matrix addition on 2x2 matrices. -/
def Mat2.add (A B : Mat2) : Mat2 :=
  ⟨A.xx + B.xx, A.xz + B.xz, A.zx + B.zx, A.zz + B.zz⟩

/-- Scalar multiple of a 2x2 matrix. -/
def Mat2.smul (c : ℚ) (A : Mat2) : Mat2 :=
  ⟨c * A.xx, c * A.xz, c * A.zx, c * A.zz⟩

/-- `numpy.dot(J, J.T)` for a 2xN matrix J given by its two rows:
the Gauss-Newton product J * transpose(J). -/
def jacOuter (J : Vec × Vec) : Mat2 :=
  ⟨dotVec J.1 J.1, dotVec J.1 J.2, dotVec J.2 J.1, dotVec J.2 J.2⟩

/-- `numpy.dot(J, r)` for a 2xN matrix J given by its two rows:
matrix-vector product, a length-2 vector. -/
def jacMulVec (J : Vec × Vec) (r : Vec) : Vec :=
  [dotVec J.1 r, dotVec J.2 r]

/-- The distinct failure sites of basin2d.py:
`lengthMismatch` and `wrongVertexCount` are the two ValueErrors of
`TriangularGzDM.__init__`; `attributeError` is the AttributeError raised by
`sum_hessian` when `self.jac_T` was never assigned; `nameError` is the
NameError raised after a zero-iteration solver loop (`i`/`chset` unbound);
`singularHessian` is the ValueError (with its literal message) that both
driver functions raise in place of numpy.linalg.LinAlgError. -/
inductive BasinError where
  | lengthMismatch : BasinError
  | wrongVertexCount (given : Nat) : BasinError
  | attributeError : BasinError
  | nameError : BasinError
  | singularHessian (msg : String) : BasinError
deriving DecidableEq, Repr

/-- State of a TriangularGzDM instance: the fields `__init__` stores plus the
transient Jacobian-transpose cache `jac_T` (absent until `sum_gradient`
assigns it; `none` models the attribute not existing). `delta` is the stored
3-vector `numpy.array([0., 0., delta])`. -/
structure TriangularGzDM where
  xp : Vec
  zp : Vec
  data : Vec
  prop : ℚ
  verts : List (ℚ × ℚ)
  delta : Vec
  jac_T : Option (Vec × Vec)
deriving DecidableEq, Repr

/-- `TriangularGzDM.__init__`, translated literally. The guard
`if len(xp) != len(zp) != len(data)` is Python's chained comparison, i.e.
`len(xp) != len(zp) and len(zp) != len(data)`; then `if len(verts) != 2`.
On success every field is stored and `jac_T` does not exist yet. -/
def TriangularGzDM.init (xp zp data : Vec) (verts : List (ℚ × ℚ)) (prop : ℚ)
    (delta : ℚ) : Except BasinError TriangularGzDM :=
  if xp.length ≠ zp.length ∧ zp.length ≠ data.length then
    .error .lengthMismatch
  else if verts.length ≠ 2 then
    .error (.wrongVertexCount verts.length)
  else
    .ok ⟨xp, zp, data, prop, verts, [0, 0, delta], none⟩

/-- The x-coordinates of the polygon `self.verts + [p]`
(`xs` from `numpy.array(tmp, dtype='f').T`). -/
def polyXs (verts : List (ℚ × ℚ)) (p : ℚ × ℚ) : Vec :=
  (verts ++ [p]).map Prod.fst

/-- The z-coordinates of the polygon `self.verts + [p]`. -/
def polyZs (verts : List (ℚ × ℚ)) (p : ℚ × ℚ) : Vec :=
  (verts ++ [p]).map Prod.snd

/-- `TriangularGzDM.get_predicted`: forward model at the candidate free
vertex p. Assigns no attribute, so the state comes back unchanged. -/
def TriangularGzDM.get_predicted (K : Kernel) (m : TriangularGzDM)
    (p : ℚ × ℚ) : TriangularGzDM × Vec :=
  (m, K m.prop (polyXs m.verts p) (polyZs m.verts p) m.xp m.zp)

/-- `TriangularGzDM.sum_gradient`, translated literally:
`at_p` is the kernel at the polygon; `jacx` divides by `delta[-1]` the
difference between the kernel at `xs + delta` (x-coordinates perturbed by the
stored 3-vector, so only the free vertex's x moves) and `at_p`; `jacz` the
same with `zs + delta`; `self.jac_T` is assigned `[jacx, jacz]`; the result
is `gradient - 2.*numpy.dot(self.jac_T, residuals)`. -/
def TriangularGzDM.sum_gradient (K : Kernel) (m : TriangularGzDM)
    (gradient : Vec) (p : ℚ × ℚ) (residuals : Vec) : TriangularGzDM × Vec :=
  let xs := polyXs m.verts p
  let zs := polyZs m.verts p
  let at_p := K m.prop xs zs m.xp m.zp
  let jacx := divVec (subVec (K m.prop (addVec xs m.delta) zs m.xp m.zp) at_p)
    (m.delta.getLastD 0)
  let jacz := divVec (subVec (K m.prop xs (addVec zs m.delta) m.xp m.zp) at_p)
    (m.delta.getLastD 0)
  (⟨m.xp, m.zp, m.data, m.prop, m.verts, m.delta, some (jacx, jacz)⟩,
    subVec gradient (scaleVec 2 (jacMulVec (jacx, jacz) residuals)))

/-- `TriangularGzDM.sum_hessian`: `hessian + 2*numpy.dot(self.jac_T,
self.jac_T.T)`. Reading `self.jac_T` before any `sum_gradient` call raises
AttributeError (`jac_T = none`). Assigns no attribute. -/
def TriangularGzDM.sum_hessian (m : TriangularGzDM) (hessian : Mat2)
    (p : ℚ × ℚ) : TriangularGzDM × Except BasinError Mat2 :=
  match m.jac_T with
  | none => (m, .error .attributeError)
  | some J => (m, .ok (hessian.add (Mat2.smul 2 (jacOuter J))))

/-- Specification-level x-derivative row: one-sided forward difference of the
kernel with the polygon x-coordinates perturbed by the stored delta vector. -/
def fdRowX (K : Kernel) (m : TriangularGzDM) (p : ℚ × ℚ) : Vec :=
  let xs := polyXs m.verts p
  let zs := polyZs m.verts p
  divVec (subVec (K m.prop (addVec xs m.delta) zs m.xp m.zp)
    (K m.prop xs zs m.xp m.zp)) (m.delta.getLastD 0)

/-- Specification-level z-derivative row: one-sided forward difference of the
kernel with the polygon z-coordinates perturbed by the stored delta vector. -/
def fdRowZ (K : Kernel) (m : TriangularGzDM) (p : ℚ × ℚ) : Vec :=
  let xs := polyXs m.verts p
  let zs := polyZs m.verts p
  divVec (subVec (K m.prop xs (addVec zs m.delta) m.xp m.zp)
    (K m.prop xs zs m.xp m.zp)) (m.delta.getLastD 0)

/-- One change set yielded by the external solver iterator. -/
structure ChangeSet where
  estimate : Vec
  residuals : List Vec
  misfits : Vec
  goals : Vec
deriving DecidableEq, Repr

/-- One run of the opaque solver iterator over the data modules: the finite
list of change sets it yields, followed either by normal exhaustion
(`raisesLinAlg = false`) or by numpy.linalg.LinAlgError
(`raisesLinAlg = true`) on the next step. -/
structure SolverRun where
  chsets : List ChangeSet
  raisesLinAlg : Bool
deriving DecidableEq, Repr

/-- The literal message of the ValueError both driver functions raise when
the solver signals a linear-algebra singularity. -/
def singularMsg : String :=
  "Oops, the Hessian is a singular matrix. Try applying more regularization"

/-- `_triangular_solver`: drives the solver loop to exhaustion keeping only
the final change set and returns `(chset['estimate'], chset['residuals'])`.
A LinAlgError anywhere in the loop is caught and re-raised as the
singular-Hessian ValueError. If the loop ran zero times, the post-loop
logging reads the never-bound locals `i` and `chset`: NameError. -/
def triangular_solver (run : SolverRun) :
    Except BasinError (Vec × List Vec) :=
  if run.raisesLinAlg then .error (.singularHessian singularMsg)
  else
    match run.chsets.getLast? with
    | none => .error .nameError
    | some c => .ok (c.estimate, c.residuals)

/-- `_triangular_iterator`, fully consumed: the pairs
`(chset['estimate'], chset['residuals'])` it yields (one per change set the
solver produced), and the error, if any, its consumer sees after the last
yield: the translated singular-Hessian ValueError if the solver raised
LinAlgError, the NameError of the post-loop logging if the loop ran zero
times, and nothing otherwise. -/
def triangular_iterator (run : SolverRun) :
    List (Vec × List Vec) × Option BasinError :=
  (run.chsets.map (fun c => (c.estimate, c.residuals)),
    if run.raisesLinAlg then some (.singularHessian singularMsg)
    else if run.chsets.isEmpty then some .nameError
    else none)

/-- `triangular(dms, solver, iterate)`: dispatches on `iterate` to the
streaming generator or the one-shot solver loop. -/
def triangular (run : SolverRun) (iterate : Bool) :
    Except BasinError (Vec × List Vec) ⊕ (List (Vec × List Vec) × Option BasinError) :=
  if iterate then .inr (triangular_iterator run) else .inl (triangular_solver run)

/-- Concrete test kernel predicting the single value sum(xs) * sum(zs);
it depends on both vertex-coordinate arrays. -/
def KsumProd : Kernel := fun _prop xs zs _xp _zp => [xs.sum * zs.sum]

/-- Concrete test kernel predicting the single value sum(xs);
it depends only on the vertex x-coordinates. -/
def KxOnly : Kernel := fun _prop xs _zs _xp _zp => [xs.sum]

/-- Concrete module: one observation at the origin, data 0, density contrast
500, fixed vertices (0,0) and (1,0), delta = 1 (stored as [0,0,1]). -/
def dmEx : TriangularGzDM :=
  ⟨[0], [0], [0], 500, [(0, 0), (1, 0)], [0, 0, 1], none⟩

/-- Claim C1 (amended): `sum_gradient` returns the input gradient accumulator
MINUS `2 * jac_T · residuals` (decremented, not incremented), where the
2xN Jacobian-transpose it computes and caches at p has the finite-difference
rows `fdRowX` and `fdRowZ`. -/
theorem sum_gradient_decrements_by_jacobian (K : Kernel) (m : TriangularGzDM)
    (g : Vec) (p : ℚ × ℚ) (r : Vec) :
    (TriangularGzDM.sum_gradient K m g p r).2 =
      subVec g (scaleVec 2 (jacMulVec (fdRowX K m p, fdRowZ K m p) r)) ∧
    (TriangularGzDM.sum_gradient K m g p r).1.jac_T =
      some (fdRowX K m p, fdRowZ K m p) := by
  constructor <;> rfl

/-- Claim C1 counterexample: on a concrete module and kernel, the gradient
accumulator [0, 0] with residuals [1] yields [-6, -6], which is NOT
`[0, 0] + 2 * jac_T · residuals = [6, 6]` for the Jacobian-transpose
([3], [3]) that this very call caches: the accumulator is decremented. -/
theorem sum_gradient_increment_cex :
    (TriangularGzDM.sum_gradient KsumProd dmEx [0, 0] (2, 3) [1]).2 = [-6, -6] ∧
    (TriangularGzDM.sum_gradient KsumProd dmEx [0, 0] (2, 3) [1]).1.jac_T =
      some ([3], [3]) ∧
    ¬ (([-6, -6] : Vec) =
      addVec [0, 0] (scaleVec 2 (jacMulVec (([3], [3]) : Vec × Vec) [1]))) := by
  refine ⟨?_, ?_, ?_⟩ <;>
  · simp [TriangularGzDM.sum_gradient, KsumProd, dmEx, polyXs, polyZs,
      addVec, subVec, divVec, scaleVec, dotVec, jacMulVec]
    norm_num

/-- Claim C2 (amended): `sum_gradient` computes the x-derivative row from a
kernel call in which the polygon x-coordinates are perturbed by the stored
delta vector, and the z-derivative row from a separate call perturbing the
z-coordinates; with `verts = [v0, v1]` and `delta = [0, 0, d]` the perturbed
arrays are exactly the polygon arrays of the free vertex moved by d along x
(respectively z), so only the free vertex is perturbed, and the x-coordinate
IS perturbed for the x-row. -/
theorem sum_gradient_rows_perturb_each_axis (K : Kernel) (m : TriangularGzDM)
    (g : Vec) (p : ℚ × ℚ) (r : Vec) (v0 v1 : ℚ × ℚ) (d : ℚ)
    (hv : m.verts = [v0, v1]) (hd : m.delta = [0, 0, d]) :
    (TriangularGzDM.sum_gradient K m g p r).1.jac_T =
      some (fdRowX K m p, fdRowZ K m p) ∧
    addVec (polyXs m.verts p) m.delta = polyXs m.verts (p.1 + d, p.2) ∧
    addVec (polyZs m.verts p) m.delta = polyZs m.verts (p.1, p.2 + d) := by
  refine ⟨rfl, ?_, ?_⟩ <;>
  · rw [hv, hd]
    simp [addVec, polyXs, polyZs]

/-- Claim C2 witness: the amended statement instantiated on the concrete
module `dmEx` and kernel `KxOnly` at free vertex (2, 3). -/
theorem sum_gradient_rows_perturb_each_axis_witness :
    (TriangularGzDM.sum_gradient KxOnly dmEx [0, 0] (2, 3) [1]).1.jac_T =
      some (fdRowX KxOnly dmEx (2, 3), fdRowZ KxOnly dmEx (2, 3)) ∧
    addVec (polyXs dmEx.verts (2, 3)) dmEx.delta =
      polyXs dmEx.verts ((2 : ℚ) + 1, 3) :=
  ⟨(sum_gradient_rows_perturb_each_axis KxOnly dmEx [0, 0] (2, 3) [1]
      (0, 0) (1, 0) 1 rfl rfl).1,
   (sum_gradient_rows_perturb_each_axis KxOnly dmEx [0, 0] (2, 3) [1]
      (0, 0) (1, 0) 1 rfl rfl).2.1⟩

/-- Claim C2 counterexample: with a kernel that depends only on the
x-coordinates, `sum_gradient` caches jac_T = ([1], [0]): the x-row is 1,
whereas any row computed from the z-perturbed kernel call is 0. So the
x-row is NOT computed from the same kernel call in which only z is
perturbed, and the free vertex's x-coordinate IS perturbed. -/
theorem sum_gradient_x_row_not_z_call_cex :
    (TriangularGzDM.sum_gradient KxOnly dmEx [0, 0] (2, 3) [1]).1.jac_T =
      some ([1], [0]) ∧
    fdRowZ KxOnly dmEx (2, 3) = [0] ∧
    ¬ ((TriangularGzDM.sum_gradient KxOnly dmEx [0, 0] (2, 3) [1]).1.jac_T =
      some (fdRowZ KxOnly dmEx (2, 3), fdRowZ KxOnly dmEx (2, 3))) := by
  refine ⟨?_, ?_, ?_⟩ <;>
  · simp [TriangularGzDM.sum_gradient, KxOnly, dmEx, polyXs, polyZs, fdRowZ,
      addVec, subVec, divVec, scaleVec, dotVec, jacMulVec]
    try norm_num

/-- Claim C3: the intended length guard. The docstring and error message of
`__init__` say xp, zp and data must have the same length, but the Python
chained comparison `len(xp) != len(zp) != len(data)` only fires when BOTH
`len(xp) != len(zp)` and `len(zp) != len(data)`: with xp and zp of length 2
and data of length 3 construction succeeds instead of raising ValueError. -/
theorem init_accepts_mismatched_data_length :
    TriangularGzDM.init [0, 1] [0, 1] [0, 1, 2] [(0, 0), (1, 0)] 500 1 =
      .ok ⟨[0, 1], [0, 1], [0, 1, 2], 500, [(0, 0), (1, 0)], [0, 0, 1], none⟩ :=
  rfl

/-- Claim C4: when the solver iterator raises numpy.linalg.LinAlgError, both
the non-streaming run and the (consumed) streaming run abort with the
descriptive singular-Hessian ValueError carrying the regularization advice,
and the non-streaming run returns no (estimate, residuals) result. -/
theorem driver_translates_linalg_error (run : SolverRun)
    (h : run.raisesLinAlg = true) :
    triangular_solver run = .error (.singularHessian singularMsg) ∧
    (triangular_iterator run).2 = some (.singularHessian singularMsg) ∧
    ∀ est res, triangular_solver run ≠ .ok (est, res) := by
  refine ⟨?_, ?_, ?_⟩ <;> simp [triangular_solver, triangular_iterator, h]

/-- Claim C4 witness: a solver run that raises LinAlgError immediately. -/
theorem driver_translates_linalg_error_witness :
    triangular_solver ⟨[], true⟩ = .error (.singularHessian singularMsg) :=
  (driver_translates_linalg_error ⟨[], true⟩ rfl).1

/-- Claim C5: `sum_hessian` returns the accumulator plus
`2 * jac_T * transpose(jac_T)` built from the cached Jacobian-transpose, and
the free-vertex argument does not affect the result. -/
theorem sum_hessian_gauss_newton (m : TriangularGzDM) (H : Mat2) (p : ℚ × ℚ)
    (J : Vec × Vec) (h : m.jac_T = some J) :
    (m.sum_hessian H p).2 = .ok (H.add (Mat2.smul 2 (jacOuter J))) ∧
    ∀ q : ℚ × ℚ, m.sum_hessian H q = m.sum_hessian H p := by
  refine ⟨?_, fun q => rfl⟩
  simp [TriangularGzDM.sum_hessian, h]

/-- Claim C5 witness: a module whose cache holds jac_T = ([1], [0]). -/
theorem sum_hessian_gauss_newton_witness :
    (TriangularGzDM.sum_hessian
        ⟨[0], [0], [0], 500, [(0, 0), (1, 0)], [0, 0, 1], some ([1], [0])⟩
        ⟨0, 0, 0, 0⟩ (2, 3)).2 =
      .ok (Mat2.add ⟨0, 0, 0, 0⟩ (Mat2.smul 2 (jacOuter ([1], [0])))) :=
  (sum_hessian_gauss_newton
    ⟨[0], [0], [0], 500, [(0, 0), (1, 0)], [0, 0, 1], some ([1], [0])⟩
    ⟨0, 0, 0, 0⟩ (2, 3) ([1], [0]) rfl).1

/-- Helper: `getLast?` commutes with `map`. -/
theorem getLast?_map_eq {α β : Type} (f : α → β) :
    ∀ l : List α, (l.map f).getLast? = (l.getLast?).map f
  | [] => rfl
  | [_] => rfl
  | a :: b :: l => by
    rw [List.map_cons, List.map_cons, List.getLast?_cons_cons,
      List.getLast?_cons_cons, ← List.map_cons f b l]
    exact getLast?_map_eq f (b :: l)

/-- Claim C6: on a solver run that yields at least one change set and raises
no LinAlgError, the streaming run yields one (estimate, residuals) pair per
solver iteration and finishes without error, and its final yielded pair is
exactly the result the non-streaming run returns; `triangular` dispatches the
two modes on its `iterate` flag. -/
theorem iterator_final_matches_solver (run : SolverRun)
    (h : run.raisesLinAlg = false) (hne : run.chsets ≠ []) :
    (triangular_iterator run).1.length = run.chsets.length ∧
    (triangular_iterator run).2 = none ∧
    ∃ final, triangular_solver run = .ok final ∧
      (triangular_iterator run).1.getLast? = some final ∧
      triangular run false = .inl (.ok final) ∧
      triangular run true = .inr (triangular_iterator run) := by
  have hg : run.chsets.getLast? = some (run.chsets.getLast hne) :=
    List.getLast?_eq_getLast_of_ne_nil hne
  have hsolve : triangular_solver run =
      .ok ((run.chsets.getLast hne).estimate, (run.chsets.getLast hne).residuals) := by
    simp [triangular_solver, h, hg]
  refine ⟨by simp [triangular_iterator], by simp [triangular_iterator, h, hne],
    ((run.chsets.getLast hne).estimate, (run.chsets.getLast hne).residuals),
    hsolve, ?_, by simp [triangular, hsolve], by simp [triangular]⟩
  show (run.chsets.map fun c => (c.estimate, c.residuals)).getLast? = _
  rw [getLast?_map_eq, hg]
  rfl

/-- Claim C6 witness: a one-iteration solver run. -/
theorem iterator_final_matches_solver_witness :
    (triangular_iterator ⟨[⟨[1], [[2]], [3], [4]⟩], false⟩).1.length =
      ([⟨[1], [[2]], [3], [4]⟩] : List ChangeSet).length :=
  (iterator_final_matches_solver ⟨[⟨[1], [[2]], [3], [4]⟩], false⟩ rfl
    (List.cons_ne_nil _ _)).1

/-- Claim C7 counterexample: with zero fixed vertices but arrays of lengths
1, 2, 3, `__init__` raises the length-mismatch ValueError, not the
wrong-vertex-count one: the length check fires first, so a wrong vertex
count does not always surface as the documented wrong-vertex-count error. -/
theorem init_wrong_vertex_error_cex :
    TriangularGzDM.init [0] [0, 1] [0, 1, 2] [] 500 1 =
      .error .lengthMismatch ∧
    (Except.error BasinError.lengthMismatch :
        Except BasinError TriangularGzDM) ≠
      .error (.wrongVertexCount ([] : List (ℚ × ℚ)).length) := by
  exact ⟨rfl, by simp⟩

/-- Claim C7 (amended): with a fixed-vertex count other than 2 construction
always fails; it fails with the wrong-vertex-count ValueError whenever the
(chained) array-length check does not fire first, and with the
length-mismatch ValueError otherwise; with exactly 2 fixed vertices and all
three arrays of equal length, construction succeeds. -/
theorem init_vertex_count_check (xp zp data : Vec) (verts : List (ℚ × ℚ))
    (prop d : ℚ) :
    (verts.length ≠ 2 →
      ∃ e, TriangularGzDM.init xp zp data verts prop d = .error e) ∧
    (verts.length ≠ 2 → ¬(xp.length ≠ zp.length ∧ zp.length ≠ data.length) →
      TriangularGzDM.init xp zp data verts prop d =
        .error (.wrongVertexCount verts.length)) ∧
    (verts.length = 2 → xp.length = zp.length → zp.length = data.length →
      TriangularGzDM.init xp zp data verts prop d =
        .ok ⟨xp, zp, data, prop, verts, [0, 0, d], none⟩) := by
  unfold TriangularGzDM.init
  refine ⟨?_, ?_, ?_⟩
  · intro hv
    by_cases hlen : xp.length ≠ zp.length ∧ zp.length ≠ data.length
    · rw [if_pos hlen]
      exact ⟨_, rfl⟩
    · rw [if_neg hlen, if_pos hv]
      exact ⟨_, rfl⟩
  · intro hv hlen
    rw [if_neg hlen, if_pos hv]
  · intro hv hxz hzd
    rw [if_neg (by simp [hxz]), if_neg (by simp [hv])]

/-- Claim C7 witness: equal-length arrays and two fixed vertices build the
module. -/
theorem init_vertex_count_check_witness :
    TriangularGzDM.init [0] [0] [0] [(1, 2), (3, 4)] 500 1 =
      .ok ⟨[0], [0], [0], 500, [(1, 2), (3, 4)], [0, 0, 1], none⟩ :=
  (init_vertex_count_check [0] [0] [0] [(1, 2), (3, 4)] 500 1).2.2 rfl rfl rfl

/-- Claim C8: on any freshly constructed module (straight out of `__init__`,
no `sum_gradient` call yet) `sum_hessian` fails with the AttributeError of
the missing `jac_T` cache instead of returning a numeric Hessian. -/
theorem sum_hessian_before_gradient_fails (xp zp data : Vec)
    (verts : List (ℚ × ℚ)) (prop d : ℚ) (m : TriangularGzDM)
    (hm : TriangularGzDM.init xp zp data verts prop d = .ok m)
    (H : Mat2) (p : ℚ × ℚ) :
    (m.sum_hessian H p).2 = .error .attributeError := by
  have hj : m.jac_T = none := by
    unfold TriangularGzDM.init at hm
    split at hm
    · exact Except.noConfusion hm
    · split at hm
      · exact Except.noConfusion hm
      · injection hm with h
        rw [← h]
  simp [TriangularGzDM.sum_hessian, hj]

/-- Claim C8 witness: `dmEx` is freshly constructed and its `sum_hessian`
fails. -/
theorem sum_hessian_before_gradient_fails_witness :
    (TriangularGzDM.sum_hessian dmEx ⟨0, 0, 0, 0⟩ (2, 3)).2 =
      .error .attributeError :=
  sum_hessian_before_gradient_fails [0] [0] [0] [(0, 0), (1, 0)] 500 1 dmEx
    rfl ⟨0, 0, 0, 0⟩ (2, 3)

/-- Claim C9: `get_predicted` and `sum_hessian` leave the module state
entirely unchanged, and `sum_gradient` preserves xp, zp, the stored data,
prop, verts and delta, writing only the transient `jac_T` cache. -/
theorem methods_preserve_fields (K : Kernel) (m : TriangularGzDM)
    (p : ℚ × ℚ) (g r : Vec) (H : Mat2) :
    (m.get_predicted K p).1 = m ∧
    (m.sum_hessian H p).1 = m ∧
    (TriangularGzDM.sum_gradient K m g p r).1.xp = m.xp ∧
    (TriangularGzDM.sum_gradient K m g p r).1.zp = m.zp ∧
    (TriangularGzDM.sum_gradient K m g p r).1.data = m.data ∧
    (TriangularGzDM.sum_gradient K m g p r).1.prop = m.prop ∧
    (TriangularGzDM.sum_gradient K m g p r).1.verts = m.verts ∧
    (TriangularGzDM.sum_gradient K m g p r).1.delta = m.delta ∧
    (TriangularGzDM.sum_gradient K m g p r).1.jac_T =
      some (fdRowX K m p, fdRowZ K m p) := by
  refine ⟨rfl, ?_, rfl, rfl, rfl, rfl, rfl, rfl, rfl⟩
  cases hj : m.jac_T <;> simp [TriangularGzDM.sum_hessian, hj]

/-- Claim C10: a solver that terminates immediately, yielding zero change
sets and raising nothing, leaves the loop variables of
`_triangular_solver` unbound: the run fails (with the NameError of the
post-loop logging) and returns no (estimate, residuals) result. -/
theorem empty_solver_run_fails (run : SolverRun) (h1 : run.chsets = [])
    (h2 : run.raisesLinAlg = false) :
    triangular_solver run = .error .nameError ∧
    ∀ out, triangular_solver run ≠ .ok out := by
  have he : triangular_solver run = .error .nameError := by
    simp [triangular_solver, h1, h2]
  exact ⟨he, fun out hout => by rw [he] at hout; exact Except.noConfusion hout⟩

/-- Claim C10 witness: the empty solver run. -/
theorem empty_solver_run_fails_witness :
    triangular_solver ⟨[], false⟩ = .error .nameError :=
  (empty_solver_run_fails ⟨[], false⟩ rfl rfl).1

end Basin2d
